import Mathlib

/-
Verification of the homework-status notification bot (src/homework.py).

The embedding is shallow: Python values are modelled by `PyVal`, Python
exceptions by `PyError`, fallible functions return `Except PyError _`,
and the effectful pieces (the HTTP request in `get_api_answer`, the
Telegram delivery in `send_message`, logging, sleeping) are modelled by
passing in an explicit per-iteration environment and collecting an
event trace.
-/

namespace HomeworkBot

/-- Decoded Python/JSON values, as far as the program inspects them. -/
inductive PyVal where
  | str (s : String)
  | int (n : Int)
  | bool (b : Bool)
  | null
  | list (xs : List PyVal)
  | dict (entries : List (String × PyVal))

/-- Python exceptions raised by the program, carrying their message
argument.  `httpRequestError` is the repository's custom
`HTTPRequestError` from `exceptions.py`. -/
inductive PyError where
  | keyError (msg : String)
  | typeError (msg : String)
  | httpRequestError (msg : String)
  | otherError (msg : String)
deriving DecidableEq

/-- Modelled from the spec: `exceptions.py` is not under src/; the spec
says the one error kind "carries a fixed human-readable message", so
`HTTPRequestError` is modelled as a plain `Exception` subclass whose
`str()` is its message.  Python's `str()` of the exception, as used by
`logger.error(error)` and the f-string in `main`; note `str(KeyError(m))`
is the `repr` of `m`, i.e. quoted. -/
def PyError.str : PyError → String
  | .keyError m => "\x27" ++ m ++ "\x27"
  | .typeError m => m
  | .httpRequestError m => m
  | .otherError m => m

/-- The message argument the exception was constructed with. -/
def PyError.msg : PyError → String
  | .keyError m => m
  | .typeError m => m
  | .httpRequestError m => m
  | .otherError m => m

/-- Python dict lookup on the association-list representation
(keys of a Python dict literal are unique, so first-match lookup is
the dict's lookup). -/
def dict_get (d : List (String × PyVal)) (k : String) : Option PyVal :=
  match d with
  | [] => Option.none
  | (k1, v) :: rest => if k1 = k then Option.some v else dict_get rest k

/-- Lookup in the `HOMEWORK_VERDICTS` string-to-string dict. -/
def verdict_get (d : List (String × String)) (k : String) : Option String :=
  match d with
  | [] => Option.none
  | (k1, v) :: rest => if k1 = k then Option.some v else verdict_get rest k

/-- RETRY_PERIOD = 600 (src/homework.py line 21). -/
def RETRY_PERIOD : Nat := 600

/-- ERROR_SEND_MESSAGE (line 24). -/
def ERROR_SEND_MESSAGE : String := "Отсутствует доступ к серверу Telegram"

/-- ERROR_GET_API_ANSWER (line 25). -/
def ERROR_GET_API_ANSWER : String := "Отсутствует доступ к серверу Яндекс.Практикум"

/-- ERROR_CHECK_RESPONSE (line 26). -/
def ERROR_CHECK_RESPONSE : String := "Некорректный ответ API"

/-- ERROR_PARSE_STATUS (line 27). -/
def ERROR_PARSE_STATUS : String :=
  "Недокументированный статус проверки или отсуствие ключа"

/-- HOMEWORK_VERDICTS (lines 30-34). -/
def HOMEWORK_VERDICTS : List (String × String) :=
  [("approved", "Работа проверена: ревьюеру всё понравилось. Ура!"),
   ("reviewing", "Работа взята на проверку ревьюером."),
   ("rejected", "Работа проверена: у ревьюера есть замечания.")]

/-- Is the value a Python dict? (`isinstance(x, dict)`). -/
def PyVal.isDict : PyVal → Bool
  | .dict _ => true
  | _ => false

/-- Is the value a Python list? (`isinstance(x, list)`). -/
def PyVal.isList : PyVal → Bool
  | .list _ => true
  | _ => false

/-- `check_response` (lines 75-83): validate the decoded API response and
return the `homeworks` list. -/
def check_response (response : PyVal) : Except PyError (List PyVal) :=
  match response with
  | .dict d =>
    match dict_get d "homeworks" with
    | Option.none => Except.error (PyError.keyError ERROR_CHECK_RESPONSE)
    | Option.some v =>
      match v with
      | .list l => Except.ok l
      | _ => Except.error (PyError.typeError ERROR_CHECK_RESPONSE)
  | _ => Except.error (PyError.typeError ERROR_CHECK_RESPONSE)

/-- Stand-in message for the `TypeError` Python raises when
`parse_status` is applied to a non-mapping value (the exact Python text
varies with the value's type; no claim depends on it, only on the fact
that the call fails with a TypeError before returning). -/
def NON_MAPPING_MESSAGE : String := "object is not subscriptable"

/-- `parse_status` (lines 86-97): validate one submission record and
render its notification text.  Checks, in source order: key presence
(KeyError), string types (TypeError), vocabulary membership (KeyError),
each with message `ERROR_PARSE_STATUS`. -/
def parse_status (homework : PyVal) : Except PyError String :=
  match homework with
  | .dict d =>
    match dict_get d "homework_name", dict_get d "status" with
    | Option.some hn, Option.some st =>
      match hn, st with
      | .str homework_name, .str status =>
        (match verdict_get HOMEWORK_VERDICTS status with
         | Option.some verdict =>
             Except.ok ("Изменился статус проверки работы \"" ++ homework_name
               ++ "\". " ++ verdict)
         | Option.none => Except.error (PyError.keyError ERROR_PARSE_STATUS))
      | _, _ => Except.error (PyError.typeError ERROR_PARSE_STATUS)
    | _, _ => Except.error (PyError.keyError ERROR_PARSE_STATUS)
  | _ => Except.error (PyError.typeError NON_MAPPING_MESSAGE)

/-- Outcome of the one HTTP request an iteration makes:
either `requests.get` itself raises (transport failure), or it returns a
status code and a body, where `Option.none` for the body means `.json()`
raises (decode failure). -/
inductive HttpOutcome where
  | transportFailure
  | response (status_code : Nat) (body : Option PyVal)

/-- `get_api_answer` (lines 58-72): request the endpoint; on a 200
response return the decoded body; any failure (transport, non-200,
decode) is collapsed into `HTTPRequestError(ERROR_GET_API_ANSWER)`
(the inner `raise` for non-200 is itself re-caught by the blanket
`except Exception` and re-raised with the same message). -/
def get_api_answer (timestamp : Int) (outcome : HttpOutcome) :
    Except PyError PyVal :=
  match outcome with
  | .transportFailure =>
      Except.error (PyError.httpRequestError ERROR_GET_API_ANSWER)
  | .response code body =>
      if code = 200 then
        match body with
        | Option.some v => Except.ok v
        | Option.none =>
            Except.error (PyError.httpRequestError ERROR_GET_API_ANSWER)
      else Except.error (PyError.httpRequestError ERROR_GET_API_ANSWER)

/-- Log levels used by the program. -/
inductive LogLevel where
  | debug
  | info
  | error
  | critical
deriving DecidableEq

/-- Observable events of one loop iteration: the API request (with its
`from_date` parameter), the assignment to `old_message`, the call to
`bot.send_message`/Notifier, log records, and the final sleep. -/
inductive Event where
  | apiRequest (from_date : Int)
  | assignOld (message : String)
  | sendCall (message : String)
  | log (level : LogLevel) (text : String)
  | sleep (seconds : Nat)
deriving DecidableEq

/-- Debug text logged on successful Telegram delivery (line 53). -/
def SUCCESS_SEND_MESSAGE : String := "Успешная отправка сообщения в Telegram"

/-- Outcome of the underlying `bot.send_message` call: `none` means it
succeeds, `some e` means it raises `e`. -/
def bot_send (outcome : Option PyError) : Except PyError Unit :=
  match outcome with
  | Option.none => Except.ok ()
  | Option.some e => Except.error e

/-- `send_message` (lines 49-55): attempt delivery; on success log debug,
on ANY exception log at error level and swallow it (`except Exception`),
returning normally either way.  The result is the list of log events. -/
def send_message (outcome : Option PyError) : Except PyError (List Event) :=
  match bot_send outcome with
  | Except.ok _ => Except.ok [Event.log LogLevel.debug SUCCESS_SEND_MESSAGE]
  | Except.error _ => Except.ok [Event.log LogLevel.error ERROR_SEND_MESSAGE]

/-- The events `send_message` produces (it never fails, see
`send_message_never_raises`; the `[]` branch is unreachable). -/
def send_events (outcome : Option PyError) : List Event :=
  match send_message outcome with
  | Except.ok evs => evs
  | Except.error _ => []

/-- The loop-local mutable state of `main` (lines 110-111):
`timestamp` and `old_message` (`None` before the first send). -/
structure PollState where
  timestamp : Int
  old_message : Option String
deriving DecidableEq

/-- The environment one loop iteration runs against: the outcome of the
HTTP request and the outcome of the underlying Telegram delivery call
(consulted only if `send_message` is reached). -/
structure IterEnv where
  http : HttpOutcome
  sendOutcome : Option PyError

/-- The fixed empty-result message (line 118). -/
def EMPTY_MESSAGE : String := "Ответ API пуст: нет домашних работ."

/-- The failure notification text built in the `except` branch
(line 127): the f-string interpolating str(error) after the fixed
Russian head `Сбой в работе программы: `. -/
def failure_message (e : PyError) : String :=
  "Сбой в работе программы: " ++ PyError.str e

/-- The de-dup dispatch (lines 122-124 and 128-130): if the computed
message differs from `old_message`, assign `old_message` and call
`send_message`; `pre` are the events already produced earlier in the
branch (e.g. the debug log of the empty message). -/
def dispatch (s : PollState) (message : String) (outcome : Option PyError)
    (pre : List Event) : Except PyError (PollState × List Event) :=
  if s.old_message = Option.some message then Except.ok (s, pre)
  else
    match send_message outcome with
    | Except.ok sendEvs =>
        Except.ok ({ s with old_message := Option.some message },
          pre ++ Event.assignOld message :: Event.sendCall message :: sendEvs)
    | Except.error e => Except.error e

/-- The body of the `try` block of one iteration (lines 114-124):
request, validate, pick the message (the fixed empty message when the
list is empty, logged at debug level; else `parse_status` of the first
element), then the de-dup dispatch.  Any exception escapes to the
`except` handler. -/
def run_try (env : IterEnv) (s : PollState) :
    Except PyError (PollState × List Event) :=
  match get_api_answer s.timestamp env.http with
  | Except.error e => Except.error e
  | Except.ok response =>
    match check_response response with
    | Except.error e => Except.error e
    | Except.ok [] =>
        dispatch s EMPTY_MESSAGE env.sendOutcome
          [Event.log LogLevel.debug EMPTY_MESSAGE]
    | Except.ok (hw :: _) =>
      match parse_status hw with
      | Except.error e => Except.error e
      | Except.ok message => dispatch s message env.sendOutcome []

/-- The `except Exception` handler (lines 125-130): log the error,
build the failure message, and apply the same de-dup dispatch. -/
def except_branch (e : PyError) (outcome : Option PyError) (s : PollState) :
    PollState × List Event :=
  if s.old_message = Option.some (failure_message e) then
    (s, [Event.log LogLevel.error (PyError.str e)])
  else
    ({ s with old_message := Option.some (failure_message e) },
     Event.log LogLevel.error (PyError.str e)
       :: Event.assignOld (failure_message e)
       :: Event.sendCall (failure_message e)
       :: send_events outcome)

/-- `try`/`except` of one iteration, without the `finally`. -/
def try_except (env : IterEnv) (s : PollState) : PollState × List Event :=
  match run_try env s with
  | Except.ok r => r
  | Except.error e => except_branch e env.sendOutcome s

/-- One full iteration of the `while True` loop (lines 113-132): the
`try`/`except` body, bracketed by the API request event at the start and
the unconditional `finally: time.sleep(RETRY_PERIOD)` at the end. -/
def iterate (env : IterEnv) (s : PollState) : PollState × List Event :=
  let r := try_except env s
  (r.1, (Event.apiRequest s.timestamp :: r.2) ++ [Event.sleep RETRY_PERIOD])

/-- Run `n = envs.length` consecutive iterations, one per environment,
threading the state and concatenating the event traces. -/
def run (envs : List IterEnv) (s : PollState) : PollState × List Event :=
  match envs with
  | [] => (s, [])
  | env :: rest =>
      let r1 := iterate env s
      let r2 := run rest r1.1
      (r2.1, r1.2 ++ r2.2)

/-- The initial `PollState` of `main` (lines 110-111):
`timestamp = int(time.time()) - RETRY_PERIOD`, `old_message = None`. -/
def main_init (now : Int) : PollState :=
  { timestamp := now - (RETRY_PERIOD : Int), old_message := Option.none }

/-- Steps (a)-(c) of an iteration as a pure function of the HTTP
outcome: the message the iteration computes, or the exception it
raises.  (`get_api_answer`'s result does not depend on the timestamp
argument, so the outcome determines the message.) -/
def compute_message (o : HttpOutcome) : Except PyError String :=
  match get_api_answer 0 o with
  | Except.error e => Except.error e
  | Except.ok response =>
    match check_response response with
    | Except.error e => Except.error e
    | Except.ok [] => Except.ok EMPTY_MESSAGE
    | Except.ok (hw :: _) => parse_status hw

/-- The message an iteration compares against `old_message`: the
computed message on success, the failure notification on exception. -/
def message_of (o : HttpOutcome) : String :=
  match compute_message o with
  | Except.ok m => m
  | Except.error e => failure_message e

/-- The messages for which the Notifier (`send_message`) was invoked,
in order, in a trace. -/
def sentMessages (evs : List Event) : List String :=
  evs.filterMap fun ev =>
    match ev with
    | Event.sendCall m => Option.some m
    | _ => Option.none

/-- The `from_date` parameters of the API requests in a trace. -/
def apiRequestTimes (evs : List Event) : List Int :=
  evs.filterMap fun ev =>
    match ev with
    | Event.apiRequest t => Option.some t
    | _ => Option.none

/-! Helper lemmas about the embedding. -/

/-- The result of `get_api_answer` does not depend on the timestamp
argument (the timestamp only goes into the request payload). -/
lemma get_api_answer_timestamp (t : Int) (o : HttpOutcome) :
    get_api_answer t o = get_api_answer 0 o := rfl

/-- `send_message` always returns normally, producing `send_events`. -/
lemma send_message_ok (o : Option PyError) :
    send_message o = Except.ok (send_events o) := by
  cases o <;> rfl

/-- Every event `send_message` produces is a log record. -/
lemma send_events_logs (o : Option PyError) :
    ∀ ev ∈ send_events o, ∃ lvl t, ev = Event.log lvl t := by
  cases o <;> intro ev hev <;>
    simp [send_events, send_message, bot_send] at hev <;>
    exact ⟨_, _, hev⟩

/-- A trace of log records contains no Notifier call. -/
lemma sentMessages_of_logs (evs : List Event)
    (h : ∀ ev ∈ evs, ∃ lvl t, ev = Event.log lvl t) :
    sentMessages evs = [] := by
  induction evs with
  | nil => rfl
  | cons ev rest ih =>
      obtain ⟨lvl, t, rfl⟩ := h ev (List.mem_cons_self ev rest)
      simpa [sentMessages, List.filterMap_cons] using
        ih (fun e he => h e (List.mem_cons_of_mem _ he))

/-- A trace of log records contains no API request. -/
lemma apiRequestTimes_of_logs (evs : List Event)
    (h : ∀ ev ∈ evs, ∃ lvl t, ev = Event.log lvl t) :
    apiRequestTimes evs = [] := by
  induction evs with
  | nil => rfl
  | cons ev rest ih =>
      obtain ⟨lvl, t, rfl⟩ := h ev (List.mem_cons_self ev rest)
      simpa [apiRequestTimes, List.filterMap_cons] using
        ih (fun e he => h e (List.mem_cons_of_mem _ he))

/-- Unfolded form of the de-dup dispatch. -/
lemma dispatch_eq (s : PollState) (m : String) (o : Option PyError)
    (pre : List Event) :
    dispatch s m o pre =
      if s.old_message = Option.some m then Except.ok (s, pre)
      else Except.ok ({ s with old_message := Option.some m },
        pre ++ Event.assignOld m :: Event.sendCall m :: send_events o) := by
  unfold dispatch
  split
  · rfl
  · rw [send_message_ok]

/-- If steps (a)-(c) raise, the whole `try` body raises that exception. -/
lemma run_try_error (env : IterEnv) (s : PollState) (e : PyError)
    (h : compute_message env.http = Except.error e) :
    run_try env s = Except.error e := by
  unfold run_try
  rw [get_api_answer_timestamp]
  unfold compute_message at h
  rcases h1 : get_api_answer 0 env.http with e1 | response
  · simp only [h1, Except.error.injEq] at h ⊢
    subst h; rfl
  · simp only [h1] at h ⊢
    rcases h2 : check_response response with e2 | l
    · simp only [h2, Except.error.injEq] at h ⊢
      subst h; rfl
    · rcases l with _ | ⟨hw, rest⟩
      · simp [h2] at h
      · simp only [h2] at h ⊢; rw [h]

/-- If steps (a)-(c) compute a message, the `try` body is the de-dup
dispatch of that message, after events that are all log records. -/
lemma run_try_ok (env : IterEnv) (s : PollState) (m : String)
    (h : compute_message env.http = Except.ok m) :
    ∃ pre, run_try env s = dispatch s m env.sendOutcome pre ∧
      ∀ ev ∈ pre, ∃ lvl t, ev = Event.log lvl t := by
  unfold run_try
  rw [get_api_answer_timestamp]
  unfold compute_message at h
  rcases h1 : get_api_answer 0 env.http with e1 | response
  · simp [h1] at h
  · simp only [h1] at h ⊢
    rcases h2 : check_response response with e2 | l
    · simp [h2] at h
    · rcases l with _ | ⟨hw, rest⟩
      · simp only [h2, Except.ok.injEq] at h ⊢
        subst h
        exact ⟨[Event.log LogLevel.debug EMPTY_MESSAGE], rfl,
          by intro ev hev; simp at hev; exact ⟨_, _, hev⟩⟩
      · simp only [h2] at h ⊢
        rw [h]
        exact ⟨[], rfl, by intro ev hev; simp at hev⟩

/-- Notifier calls in a trace of send_message events: none. -/
lemma sentMessages_send_events (o : Option PyError) :
    sentMessages (send_events o) = [] :=
  sentMessages_of_logs _ (send_events_logs o)

/-- API requests in a trace of send_message events: none. -/
lemma apiRequestTimes_send_events (o : Option PyError) :
    apiRequestTimes (send_events o) = [] :=
  apiRequestTimes_of_logs _ (send_events_logs o)

@[simp] lemma sentMessages_nil : sentMessages [] = [] := rfl

@[simp] lemma sentMessages_cons_log (lvl : LogLevel) (t : String)
    (evs : List Event) :
    sentMessages (Event.log lvl t :: evs) = sentMessages evs := rfl

@[simp] lemma sentMessages_cons_assign (m : String) (evs : List Event) :
    sentMessages (Event.assignOld m :: evs) = sentMessages evs := rfl

@[simp] lemma sentMessages_cons_send (m : String) (evs : List Event) :
    sentMessages (Event.sendCall m :: evs) = m :: sentMessages evs := rfl

@[simp] lemma sentMessages_cons_api (t : Int) (evs : List Event) :
    sentMessages (Event.apiRequest t :: evs) = sentMessages evs := rfl

@[simp] lemma sentMessages_cons_sleep (n : Nat) (evs : List Event) :
    sentMessages (Event.sleep n :: evs) = sentMessages evs := rfl

@[simp] lemma sentMessages_append (a b : List Event) :
    sentMessages (a ++ b) = sentMessages a ++ sentMessages b :=
  List.filterMap_append a b _

@[simp] lemma apiRequestTimes_nil : apiRequestTimes [] = [] := rfl

@[simp] lemma apiRequestTimes_cons_log (lvl : LogLevel) (t : String)
    (evs : List Event) :
    apiRequestTimes (Event.log lvl t :: evs) = apiRequestTimes evs := rfl

@[simp] lemma apiRequestTimes_cons_assign (m : String) (evs : List Event) :
    apiRequestTimes (Event.assignOld m :: evs) = apiRequestTimes evs := rfl

@[simp] lemma apiRequestTimes_cons_send (m : String) (evs : List Event) :
    apiRequestTimes (Event.sendCall m :: evs) = apiRequestTimes evs := rfl

@[simp] lemma apiRequestTimes_cons_api (t : Int) (evs : List Event) :
    apiRequestTimes (Event.apiRequest t :: evs) =
      t :: apiRequestTimes evs := rfl

@[simp] lemma apiRequestTimes_cons_sleep (n : Nat) (evs : List Event) :
    apiRequestTimes (Event.sleep n :: evs) = apiRequestTimes evs := rfl

@[simp] lemma apiRequestTimes_append (a b : List Event) :
    apiRequestTimes (a ++ b) = apiRequestTimes a ++ apiRequestTimes b :=
  List.filterMap_append a b _

/-- A `PollState` whose `old_message` is known is determined by its
timestamp. -/
lemma pollstate_eta (s : PollState) (m : String)
    (h : s.old_message = Option.some m) :
    s = ⟨s.timestamp, Option.some m⟩ := by
  cases s; simp_all

/-- After the `try`/`except` body the state is: same timestamp,
`old_message` equal to the iteration's message (whether or not it was
newly assigned, and independent of the delivery outcome). -/
lemma try_except_state (env : IterEnv) (s : PollState) :
    (try_except env s).1 =
      ⟨s.timestamp, Option.some (message_of env.http)⟩ := by
  unfold try_except
  rcases hc : compute_message env.http with e | m
  · have hm : message_of env.http = failure_message e := by
      unfold message_of; rw [hc]
    rw [run_try_error env s e hc]
    simp only []
    unfold except_branch
    rw [hm]
    by_cases hold : s.old_message = Option.some (failure_message e)
    · simp only [hold, if_pos]
      exact pollstate_eta s _ hold
    · simp only [hold, if_neg, not_false_iff]
  · have hm : message_of env.http = m := by
      unfold message_of; rw [hc]
    obtain ⟨pre, hrt, -⟩ := run_try_ok env s m hc
    rw [hrt, dispatch_eq, hm]
    by_cases hold : s.old_message = Option.some m
    · simp only [hold, if_pos]
      exact pollstate_eta s _ hold
    · simp only [hold, if_neg, not_false_iff]

/-- The Notifier calls of the `try`/`except` body: exactly one, with the
iteration's message, when it differs from `old_message`; none
otherwise. -/
lemma try_except_sent (env : IterEnv) (s : PollState) :
    sentMessages (try_except env s).2 =
      (if s.old_message = Option.some (message_of env.http) then []
       else [message_of env.http]) := by
  unfold try_except
  rcases hc : compute_message env.http with e | m
  · have hm : message_of env.http = failure_message e := by
      unfold message_of; rw [hc]
    rw [run_try_error env s e hc]
    simp only []
    unfold except_branch
    rw [hm]
    by_cases hold : s.old_message = Option.some (failure_message e)
    · simp [hold]
    · simp [hold, sentMessages_send_events]
  · have hm : message_of env.http = m := by
      unfold message_of; rw [hc]
    obtain ⟨pre, hrt, hpre⟩ := run_try_ok env s m hc
    rw [hrt, dispatch_eq, hm]
    by_cases hold : s.old_message = Option.some m
    · simp [hold, sentMessages_of_logs pre hpre]
    · simp [hold, sentMessages_of_logs pre hpre, sentMessages_send_events]

/-- The `try`/`except` body issues no API request event (that event is
added by `iterate` itself). -/
lemma try_except_api (env : IterEnv) (s : PollState) :
    apiRequestTimes (try_except env s).2 = [] := by
  unfold try_except
  rcases hc : compute_message env.http with e | m
  · rw [run_try_error env s e hc]
    simp only []
    unfold except_branch
    by_cases hold : s.old_message = Option.some (failure_message e)
    · simp [hold]
    · simp [hold, apiRequestTimes_send_events]
  · obtain ⟨pre, hrt, hpre⟩ := run_try_ok env s m hc
    rw [hrt, dispatch_eq]
    by_cases hold : s.old_message = Option.some m
    · simp [hold, apiRequestTimes_of_logs pre hpre]
    · simp [hold, apiRequestTimes_of_logs pre hpre,
        apiRequestTimes_send_events]

/-- State after one full iteration: timestamp unchanged, `old_message`
equal to the iteration's message. -/
lemma iterate_state (env : IterEnv) (s : PollState) :
    (iterate env s).1 =
      ⟨s.timestamp, Option.some (message_of env.http)⟩ :=
  try_except_state env s

/-- Notifier calls of one full iteration. -/
lemma iterate_sent (env : IterEnv) (s : PollState) :
    sentMessages (iterate env s).2 =
      (if s.old_message = Option.some (message_of env.http) then []
       else [message_of env.http]) := by
  unfold iterate
  simp only [sentMessages_append, sentMessages_cons_api,
    sentMessages_cons_sleep, sentMessages_nil, List.append_nil]
  exact try_except_sent env s

/-- One full iteration issues exactly one API request, with the current
timestamp as `from_date`. -/
lemma iterate_api (env : IterEnv) (s : PollState) :
    apiRequestTimes (iterate env s).2 = [s.timestamp] := by
  unfold iterate
  simp [try_except_api env s]

/-- The trace of one full iteration ends with the unconditional
`time.sleep(RETRY_PERIOD)`. -/
lemma iterate_sleep (env : IterEnv) (s : PollState) :
    ∃ pre, (iterate env s).2 = pre ++ [Event.sleep RETRY_PERIOD] :=
  ⟨Event.apiRequest s.timestamp :: (try_except env s).2, rfl⟩

/-- The loop never changes the timestamp. -/
lemma run_timestamp (envs : List IterEnv) (s : PollState) :
    (run envs s).1.timestamp = s.timestamp := by
  induction envs generalizing s with
  | nil => rfl
  | cons env rest ih =>
      show (run rest (iterate env s).1).1.timestamp = s.timestamp
      rw [ih, iterate_state]

/-- Every API request of a multi-iteration run uses the initial
timestamp, and there is exactly one request per iteration. -/
lemma run_api (envs : List IterEnv) (s : PollState) :
    apiRequestTimes (run envs s).2 =
      List.replicate envs.length s.timestamp := by
  induction envs generalizing s with
  | nil => rfl
  | cons env rest ih =>
      show apiRequestTimes ((iterate env s).2 ++ (run rest (iterate env s).1).2)
        = _
      rw [apiRequestTimes_append, iterate_api, ih, iterate_state,
        List.length_cons, List.replicate_succ]
      rfl

/-- If every iteration of a run computes the same message that is
already recorded in `old_message`, the Notifier is never called. -/
lemma run_sent_none (envs : List IterEnv) (s : PollState) (m : String)
    (hall : ∀ env ∈ envs, message_of env.http = m)
    (hold : s.old_message = Option.some m) :
    sentMessages (run envs s).2 = [] := by
  induction envs generalizing s with
  | nil => rfl
  | cons env rest ih =>
      have henv : message_of env.http = m :=
        hall env (List.mem_cons_self env rest)
      show sentMessages ((iterate env s).2 ++ (run rest (iterate env s).1).2)
        = []
      rw [sentMessages_append, iterate_sent, henv, if_pos hold,
        ih (iterate env s).1 (fun e he => hall e (List.mem_cons_of_mem _ he))
          (by rw [iterate_state]; simp [henv])]
      rfl

/-- Wherever the `try`/`except` body calls the Notifier with message
`m`, the assignment `old_message = m` immediately precedes the call. -/
lemma try_except_send_shape (env : IterEnv) (s : PollState) (m : String)
    (h : Event.sendCall m ∈ (try_except env s).2) :
    ∃ l r, (try_except env s).2 =
      l ++ Event.assignOld m :: Event.sendCall m :: r := by
  unfold try_except at h ⊢
  rcases hc : compute_message env.http with e | m'
  · rw [run_try_error env s e hc] at h ⊢
    simp only [] at h ⊢
    unfold except_branch at h ⊢
    by_cases hold : s.old_message = Option.some (failure_message e)
    · rw [if_pos hold] at h
      simp at h
    · rw [if_neg hold] at h ⊢
      simp only [List.mem_cons] at h
      rcases h with h | h | h | h
      · simp at h
      · simp at h
      · obtain rfl : m = failure_message e := by
          simpa [Eq.comm] using h
        exact ⟨[Event.log LogLevel.error (PyError.str e)],
          send_events env.sendOutcome, rfl⟩
      · obtain ⟨lvl, t, hlog⟩ := send_events_logs env.sendOutcome _ h
        simp at hlog
  · obtain ⟨pre, hrt, hpre⟩ := run_try_ok env s m' hc
    rw [hrt, dispatch_eq] at h ⊢
    by_cases hold : s.old_message = Option.some m'
    · rw [if_pos hold] at h
      simp only [] at h
      obtain ⟨lvl, t, hlog⟩ := hpre _ h
      simp at hlog
    · rw [if_neg hold] at h ⊢
      simp only [] at h ⊢
      rw [List.mem_append] at h
      rcases h with h | h
      · obtain ⟨lvl, t, hlog⟩ := hpre _ h
        simp at hlog
      · simp only [List.mem_cons] at h
        rcases h with h | h | h
        · simp at h
        · obtain rfl : m = m' := by simpa [Eq.comm] using h
          exact ⟨pre, send_events env.sendOutcome, rfl⟩
        · obtain ⟨lvl, t, hlog⟩ := send_events_logs env.sendOutcome _ h
          simp at hlog

/-- Wherever a full iteration calls the Notifier with message `m`, the
assignment `old_message = m` immediately precedes the call. -/
lemma iterate_send_shape (env : IterEnv) (s : PollState) (m : String)
    (h : Event.sendCall m ∈ (iterate env s).2) :
    ∃ l r, (iterate env s).2 =
      l ++ Event.assignOld m :: Event.sendCall m :: r := by
  have h' : Event.sendCall m ∈ (try_except env s).2 := by
    unfold iterate at h
    simp only [List.mem_append, List.mem_cons, List.mem_singleton] at h
    rcases h with (h | h) | h
    · simp at h
    · exact h
    · simp at h
  obtain ⟨l, r, hl⟩ := try_except_send_shape env s m h'
  refine ⟨Event.apiRequest s.timestamp :: l,
    r ++ [Event.sleep RETRY_PERIOD], ?_⟩
  show (Event.apiRequest s.timestamp :: (try_except env s).2)
      ++ [Event.sleep RETRY_PERIOD] = _
  rw [hl]
  simp

/-! The spec's error-kind vocabulary, as groupings of the concrete
Python exceptions the code raises. -/

/-- Is the value a Python string? (`isinstance(x, str)`). -/
def PyVal.isStr : PyVal → Bool
  | .str _ => true
  | _ => false

/-- The spec's grouped kind UnparseableSubmission: the KeyError or
TypeError raised by `parse_status`, both carrying `ERROR_PARSE_STATUS`. -/
def UnparseableSubmission (e : PyError) : Prop :=
  e = PyError.keyError ERROR_PARSE_STATUS ∨
  e = PyError.typeError ERROR_PARSE_STATUS

/-- The spec's MissingField kind: the KeyError raised by
`check_response`, carrying `ERROR_CHECK_RESPONSE`. -/
def MissingField (e : PyError) : Prop :=
  e = PyError.keyError ERROR_CHECK_RESPONSE

/-- The spec's InvalidResponseShape kind: the TypeError raised by
`check_response`, carrying `ERROR_CHECK_RESPONSE`. -/
def InvalidResponseShape (e : PyError) : Prop :=
  e = PyError.typeError ERROR_CHECK_RESPONSE

/-- The spec's ServerUnreachable kind: the HTTPRequestError raised by
`get_api_answer`, carrying `ERROR_GET_API_ANSWER`. -/
def ServerUnreachable (e : PyError) : Prop :=
  e = PyError.httpRequestError ERROR_GET_API_ANSWER

/-- The spec's SubmissionRecord shape (written from the spec's words,
to state what `check_response` does and does not enforce): a record
with string fields `homework_name` and `status`. -/
def is_submission_record (v : PyVal) : Bool :=
  match v with
  | .dict d =>
    (match dict_get d "homework_name", dict_get d "status" with
     | Option.some (PyVal.str _), Option.some (PyVal.str _) => true
     | _, _ => false)
  | _ => false

/-- C3: for every submission record with string fields `homework_name`
and `status` where `status` is a key of the vocabulary, `parse_status`
returns exactly `Изменился статус проверки работы "NAME". VERDICT`
with the verdict from the vocabulary lookup; in particular the
proj1/approved record yields exactly the claimed text. -/
theorem parse_status_success_format :
    (∀ (d : List (String × PyVal)) (name status verdict : String),
      dict_get d "homework_name" = Option.some (PyVal.str name) →
      dict_get d "status" = Option.some (PyVal.str status) →
      verdict_get HOMEWORK_VERDICTS status = Option.some verdict →
      parse_status (PyVal.dict d) =
        Except.ok ("Изменился статус проверки работы \"" ++ name
          ++ "\". " ++ verdict)) ∧
    parse_status (PyVal.dict
        [("homework_name", PyVal.str "proj1"),
         ("status", PyVal.str "approved")]) =
      Except.ok "Изменился статус проверки работы \"proj1\". Работа проверена: ревьюеру всё понравилось. Ура!" := by
  constructor
  · intro d name status verdict h1 h2 h3
    simp only [parse_status, h1, h2, h3]
  · rfl

/-- Witness for C3: the theorem applied to the proj1/approved record. -/
theorem parse_status_success_format_witness :
    parse_status (PyVal.dict
        [("homework_name", PyVal.str "proj1"),
         ("status", PyVal.str "approved")]) =
      Except.ok ("Изменился статус проверки работы \"" ++ "proj1"
        ++ "\". " ++ "Работа проверена: ревьюеру всё понравилось. Ура!") :=
  parse_status_success_format.1
    [("homework_name", PyVal.str "proj1"), ("status", PyVal.str "approved")]
    "proj1" "approved" "Работа проверена: ревьюеру всё понравилось. Ура!"
    rfl rfl rfl

/-- C4: every submission record missing `homework_name` or `status`,
or with a non-string value for either, or with an out-of-vocabulary
status, makes `parse_status` fail; the checks run in that order (key
presence as KeyError, then string types as TypeError, then vocabulary
membership as KeyError), and every such failure is of the grouped kind
UnparseableSubmission. -/
theorem parse_status_failure_cases :
    (∀ d : List (String × PyVal),
      (dict_get d "homework_name" = Option.none ∨
       dict_get d "status" = Option.none) →
      parse_status (PyVal.dict d) =
        Except.error (PyError.keyError ERROR_PARSE_STATUS)) ∧
    (∀ (d : List (String × PyVal)) (hn st : PyVal),
      dict_get d "homework_name" = Option.some hn →
      dict_get d "status" = Option.some st →
      (PyVal.isStr hn = false ∨ PyVal.isStr st = false) →
      parse_status (PyVal.dict d) =
        Except.error (PyError.typeError ERROR_PARSE_STATUS)) ∧
    (∀ (d : List (String × PyVal)) (name status : String),
      dict_get d "homework_name" = Option.some (PyVal.str name) →
      dict_get d "status" = Option.some (PyVal.str status) →
      status ≠ "approved" → status ≠ "reviewing" → status ≠ "rejected" →
      parse_status (PyVal.dict d) =
        Except.error (PyError.keyError ERROR_PARSE_STATUS)) ∧
    (∀ (d : List (String × PyVal)) (e : PyError),
      parse_status (PyVal.dict d) = Except.error e →
      UnparseableSubmission e) := by
  refine ⟨?_, ?_, ?_, ?_⟩
  · intro d hmiss
    rcases hmiss with hm | hm
    · cases h2 : dict_get d "status" <;> simp [parse_status, hm, h2]
    · cases h1 : dict_get d "homework_name" <;> simp [parse_status, hm, h1]
  · intro d hn st h1 h2 hbad
    simp only [parse_status, h1, h2]
    cases hn <;> cases st <;> try rfl
    exfalso
    rcases hbad with hb | hb <;> simp [PyVal.isStr] at hb
  · intro d name status h1 h2 ha hb hc
    have hv : verdict_get HOMEWORK_VERDICTS status = Option.none := by
      simp [verdict_get, HOMEWORK_VERDICTS, Ne.symm ha, Ne.symm hb,
        Ne.symm hc]
    simp only [parse_status, h1, h2, hv]
  · intro d e h
    rcases h1 : dict_get d "homework_name" with _ | hn
    · cases h2 : dict_get d "status" <;>
        simp only [parse_status, h1, h2, Except.error.injEq] at h <;>
        exact Or.inl h.symm
    · rcases h2 : dict_get d "status" with _ | st
      · simp only [parse_status, h1, h2, Except.error.injEq] at h
        exact Or.inl h.symm
      · cases hn <;> cases st <;>
          simp only [parse_status, h1, h2, Except.error.injEq] at h <;>
          try exact Or.inr h.symm
        rename_i a b
        rcases h3 : verdict_get HOMEWORK_VERDICTS b with _ | v
        · simp only [h3, Except.error.injEq] at h
          exact Or.inl h.symm
        · simp [h3] at h

/-- Witness for C4: the theorem applied to the empty record, to a
record with an integer status, and to an undocumented status. -/
theorem parse_status_failure_cases_witness :
    parse_status (PyVal.dict []) =
      Except.error (PyError.keyError ERROR_PARSE_STATUS) ∧
    parse_status (PyVal.dict
        [("homework_name", PyVal.str "p"), ("status", PyVal.int 3)]) =
      Except.error (PyError.typeError ERROR_PARSE_STATUS) ∧
    parse_status (PyVal.dict
        [("homework_name", PyVal.str "p"),
         ("status", PyVal.str "unknown")]) =
      Except.error (PyError.keyError ERROR_PARSE_STATUS) :=
  ⟨parse_status_failure_cases.1 [] (Or.inl rfl),
   parse_status_failure_cases.2.1
     [("homework_name", PyVal.str "p"), ("status", PyVal.int 3)]
     (PyVal.str "p") (PyVal.int 3) rfl rfl (Or.inr rfl),
   parse_status_failure_cases.2.2.1
     [("homework_name", PyVal.str "p"), ("status", PyVal.str "unknown")]
     "p" "unknown" rfl rfl (by decide) (by decide) (by decide)⟩

/-- C5: `check_response` checks, in order: non-mapping input fails with
InvalidResponseShape (TypeError), a mapping without the `homeworks` key
fails with MissingField (KeyError), a non-sequence `homeworks` value
fails with InvalidResponseShape (TypeError); on success it returns the
`homeworks` sequence unchanged, possibly empty (it is a pure function
in the embedding — no side effects to model). -/
theorem check_response_order_and_identity :
    (∀ v : PyVal, PyVal.isDict v = false →
      check_response v =
        Except.error (PyError.typeError ERROR_CHECK_RESPONSE)) ∧
    (∀ d : List (String × PyVal), dict_get d "homeworks" = Option.none →
      check_response (PyVal.dict d) =
        Except.error (PyError.keyError ERROR_CHECK_RESPONSE)) ∧
    (∀ (d : List (String × PyVal)) (v : PyVal),
      dict_get d "homeworks" = Option.some v → PyVal.isList v = false →
      check_response (PyVal.dict d) =
        Except.error (PyError.typeError ERROR_CHECK_RESPONSE)) ∧
    (∀ (d : List (String × PyVal)) (l : List PyVal),
      dict_get d "homeworks" = Option.some (PyVal.list l) →
      check_response (PyVal.dict d) = Except.ok l) ∧
    InvalidResponseShape (PyError.typeError ERROR_CHECK_RESPONSE) ∧
    MissingField (PyError.keyError ERROR_CHECK_RESPONSE) := by
  refine ⟨?_, ?_, ?_, ?_, rfl, rfl⟩
  · intro v hv
    cases v <;> simp_all [check_response, PyVal.isDict]
  · intro d hd
    simp [check_response, hd]
  · intro d v h1 h2
    simp only [check_response, h1]
    cases v <;> simp_all [PyVal.isList]
  · intro d l h1
    simp [check_response, h1]

/-- Witness for C5: the theorem applied to a scalar response, to an
empty mapping, to a string-valued `homeworks`, and to an empty list. -/
theorem check_response_order_and_identity_witness :
    check_response (PyVal.int 7) =
      Except.error (PyError.typeError ERROR_CHECK_RESPONSE) ∧
    check_response (PyVal.dict []) =
      Except.error (PyError.keyError ERROR_CHECK_RESPONSE) ∧
    check_response (PyVal.dict [("homeworks", PyVal.str "oops")]) =
      Except.error (PyError.typeError ERROR_CHECK_RESPONSE) ∧
    check_response (PyVal.dict [("homeworks", PyVal.list [])]) =
      Except.ok [] :=
  ⟨check_response_order_and_identity.1 (PyVal.int 7) rfl,
   check_response_order_and_identity.2.1 [] rfl,
   check_response_order_and_identity.2.2.1
     [("homeworks", PyVal.str "oops")] (PyVal.str "oops") rfl rfl,
   check_response_order_and_identity.2.2.2.1
     [("homeworks", PyVal.list [])] [] rfl⟩

/-- C6 counterexample: `check_response` does NOT enforce that every
element of the returned sequence is a SubmissionRecord — it accepts
`{"homeworks": [42]}` and returns the list with its non-record
element unchanged. -/
theorem check_response_no_element_check_cex :
    check_response (PyVal.dict [("homeworks", PyVal.list [PyVal.int 42])])
      = Except.ok [PyVal.int 42] ∧
    is_submission_record (PyVal.int 42) = false :=
  ⟨rfl, rfl⟩

/-- C6 amended: `check_response` validates only that `homeworks` maps
to a sequence, which it returns without inspecting its elements; the
record-shape check (string fields `homework_name` and `status`) is
enforced downstream by `parse_status`, which succeeds only on values
of the SubmissionRecord shape. -/
theorem check_response_element_validation_amended :
    (∀ (d : List (String × PyVal)) (l : List PyVal),
      dict_get d "homeworks" = Option.some (PyVal.list l) →
      check_response (PyVal.dict d) = Except.ok l) ∧
    (∀ (hw : PyVal) (m : String),
      parse_status hw = Except.ok m → is_submission_record hw = true) := by
  constructor
  · intro d l h1
    simp [check_response, h1]
  · intro hw m h
    cases hw <;> simp only [parse_status] at h <;> try exact absurd h (by simp)
    rename_i d
    rcases h1 : dict_get d "homework_name" with _ | hn <;>
      rcases h2 : dict_get d "status" with _ | st <;>
      simp only [h1, h2] at h <;> try exact absurd h (by simp)
    cases hn <;> cases st <;> simp only [] at h <;>
      try exact absurd h (by simp)
    simp [is_submission_record, h1, h2]

/-- Witness for C6 amended: the theorem applied to a list with a
non-record element (accepted unchanged) and to the proj1 record
(validated by `parse_status`). -/
theorem check_response_element_validation_amended_witness :
    check_response (PyVal.dict [("homeworks", PyVal.list [PyVal.null])])
      = Except.ok [PyVal.null] ∧
    is_submission_record (PyVal.dict
      [("homework_name", PyVal.str "proj1"),
       ("status", PyVal.str "approved")]) = true :=
  ⟨check_response_element_validation_amended.1
     [("homeworks", PyVal.list [PyVal.null])] [PyVal.null] rfl,
   check_response_element_validation_amended.2
     (PyVal.dict [("homework_name", PyVal.str "proj1"),
       ("status", PyVal.str "approved")]) _ rfl⟩

/-- C7: `get_api_answer` returns the decoded body exactly when the HTTP
status is 200 and the body decodes; every failure — transport failure,
non-200 status, decode failure — is collapsed into the single
ServerUnreachable kind (`HTTPRequestError(ERROR_GET_API_ANSWER)`), the
identical error value whatever the cause, for every timestamp. -/
theorem get_api_answer_collapse :
    (∀ (t : Int) (v : PyVal),
      get_api_answer t (HttpOutcome.response 200 (Option.some v)) =
        Except.ok v) ∧
    (∀ (t : Int) (o : HttpOutcome),
      (∀ v : PyVal, o ≠ HttpOutcome.response 200 (Option.some v)) →
      get_api_answer t o =
        Except.error (PyError.httpRequestError ERROR_GET_API_ANSWER)) ∧
    ServerUnreachable (PyError.httpRequestError ERROR_GET_API_ANSWER) := by
  refine ⟨fun t v => rfl, ?_, rfl⟩
  intro t o h
  cases o with
  | transportFailure => rfl
  | response code body =>
      by_cases hc : code = 200
      · subst hc
        cases body with
        | none => rfl
        | some v => exact absurd rfl (h v)
      · simp [get_api_answer, hc]

/-- Witness for C7: the theorem applied to a 200 response with a body,
to a transport failure, to a 404 status, and to a decode failure — the
three failures yield the identical error value. -/
theorem get_api_answer_collapse_witness :
    get_api_answer 5 (HttpOutcome.response 200 (Option.some PyVal.null)) =
      Except.ok PyVal.null ∧
    get_api_answer 5 HttpOutcome.transportFailure =
      Except.error (PyError.httpRequestError ERROR_GET_API_ANSWER) ∧
    get_api_answer 5 (HttpOutcome.response 404 (Option.some PyVal.null)) =
      Except.error (PyError.httpRequestError ERROR_GET_API_ANSWER) ∧
    get_api_answer 5 (HttpOutcome.response 200 Option.none) =
      Except.error (PyError.httpRequestError ERROR_GET_API_ANSWER) :=
  ⟨get_api_answer_collapse.1 5 PyVal.null,
   get_api_answer_collapse.2.1 5 HttpOutcome.transportFailure
     (fun v h => HttpOutcome.noConfusion h),
   get_api_answer_collapse.2.1 5 (HttpOutcome.response 404
       (Option.some PyVal.null))
     (fun v h => by simp at h),
   get_api_answer_collapse.2.1 5 (HttpOutcome.response 200 Option.none)
     (fun v h => by simp at h)⟩

/-- C8: `send_message` never raises: for every delivery outcome it
returns normally; on success it logs the debug text, and on ANY raised
exception the failure is caught and logged at error level, invisible
to the caller. -/
theorem send_message_never_raises :
    ∀ outcome : Option PyError,
      (∃ logs, send_message outcome = Except.ok logs) ∧
      send_message Option.none =
        Except.ok [Event.log LogLevel.debug SUCCESS_SEND_MESSAGE] ∧
      (∀ e : PyError, send_message (Option.some e) =
        Except.ok [Event.log LogLevel.error ERROR_SEND_MESSAGE]) :=
  fun outcome =>
    ⟨⟨send_events outcome, send_message_ok outcome⟩, rfl, fun e => rfl⟩

/-- C1: over two consecutive iterations that compute the identical
message string (success, empty-result or failure — `message_of` covers
all three), the Notifier is invoked at most once, on the first
occurrence only: within an iteration it is called exactly when the
computed message differs from `old_message`, and `old_message` holds
the message afterwards. -/
theorem dedup_consecutive_identical :
    ∀ (e1 e2 : IterEnv) (s : PollState),
      message_of e1.http = message_of e2.http →
      ((iterate e1 s).1).old_message =
          Option.some (message_of e1.http) ∧
      sentMessages (iterate e1 s).2 =
        (if s.old_message = Option.some (message_of e1.http) then []
         else [message_of e1.http]) ∧
      sentMessages (iterate e2 (iterate e1 s).1).2 = [] ∧
      (sentMessages (iterate e1 s).2 ++
        sentMessages (iterate e2 (iterate e1 s).1).2).length ≤ 1 := by
  intro e1 e2 s h12
  have hz : sentMessages (iterate e2 (iterate e1 s).1).2 = [] := by
    rw [iterate_sent, iterate_state, ← h12]
    simp
  refine ⟨by rw [iterate_state], iterate_sent e1 s, hz, ?_⟩
  rw [hz, List.append_nil, iterate_sent]
  by_cases hold : s.old_message = Option.some (message_of e1.http)
  · simp [hold]
  · simp [hold]

/-- Witness for C1: two consecutive iterations both hitting a transport
failure, starting from the fresh state — the second iteration sends
nothing. -/
theorem dedup_consecutive_identical_witness :
    sentMessages (iterate ⟨HttpOutcome.transportFailure, Option.none⟩
      (iterate ⟨HttpOutcome.transportFailure, Option.none⟩
        (main_init 0)).1).2 = [] :=
  (dedup_consecutive_identical
    ⟨HttpOutcome.transportFailure, Option.none⟩
    ⟨HttpOutcome.transportFailure, Option.none⟩
    (main_init 0) rfl).2.2.1

/-- C2: every exception raised in steps (a)-(d) is caught by the loop:
the iteration still completes, the failure is converted to the message
`Сбой в работе программы: ERROR` under the same de-dup rule, the trace
unconditionally ends with the `RETRY_PERIOD = 600` second sleep, and a
run of n scheduled iterations performs exactly n API requests — there
is no in-loop exit path on success or failure. -/
theorem loop_catches_and_sleeps :
    RETRY_PERIOD = 600 ∧
    failure_message = (fun e => "Сбой в работе программы: "
      ++ PyError.str e) ∧
    (∀ (env : IterEnv) (s : PollState),
      ∃ pre, (iterate env s).2 = pre ++ [Event.sleep RETRY_PERIOD]) ∧
    (∀ (env : IterEnv) (s : PollState) (e : PyError),
      compute_message env.http = Except.error e →
      ((iterate env s).1).old_message =
          Option.some (failure_message e) ∧
      sentMessages (iterate env s).2 =
        (if s.old_message = Option.some (failure_message e) then []
         else [failure_message e])) ∧
    (∀ (envs : List IterEnv) (s : PollState),
      apiRequestTimes (run envs s).2 =
        List.replicate envs.length s.timestamp) := by
  refine ⟨rfl, rfl, iterate_sleep, ?_, run_api⟩
  intro env s e he
  have hm : message_of env.http = failure_message e := by
    unfold message_of; rw [he]
  constructor
  · rw [iterate_state, hm]
  · rw [iterate_sent, hm]

/-- Witness for C2: an iteration whose request hits a transport failure
still produces a state, notifies with the failure text, and sleeps. -/
theorem loop_catches_and_sleeps_witness :
    ((iterate ⟨HttpOutcome.transportFailure, Option.none⟩
        (main_init 1000)).1).old_message =
      Option.some (failure_message
        (PyError.httpRequestError ERROR_GET_API_ANSWER)) ∧
    sentMessages (iterate ⟨HttpOutcome.transportFailure, Option.none⟩
        (main_init 1000)).2 =
      [failure_message (PyError.httpRequestError ERROR_GET_API_ANSWER)] := by
  have h := loop_catches_and_sleeps.2.2.2.1
    ⟨HttpOutcome.transportFailure, Option.none⟩ (main_init 1000)
    (PyError.httpRequestError ERROR_GET_API_ANSWER) rfl
  refine ⟨h.1, ?_⟩
  rw [h.2]
  simp [main_init]

/-- C9: the poll timestamp is set exactly once, to `now - RETRY_PERIOD`
before the first iteration, is never changed by any iteration, and
every API request of every iteration carries that same value — only
`old_message` is mutated by the loop. -/
theorem timestamp_frozen :
    ∀ (now : Int) (envs : List IterEnv),
      main_init now =
        { timestamp := now - (RETRY_PERIOD : Int),
          old_message := Option.none } ∧
      (∀ (env : IterEnv) (s : PollState),
        ((iterate env s).1).timestamp = s.timestamp) ∧
      ((run envs (main_init now)).1).timestamp =
        now - (RETRY_PERIOD : Int) ∧
      apiRequestTimes (run envs (main_init now)).2 =
        List.replicate envs.length (now - (RETRY_PERIOD : Int)) := by
  intro now envs
  refine ⟨rfl, fun env s => by rw [iterate_state], ?_, ?_⟩
  · rw [run_timestamp]; rfl
  · rw [run_api]; rfl

/-- C10: wherever an iteration calls the Notifier with a message, the
assignment `old_message = message` immediately precedes the call;
the resulting state is the same whatever the delivery outcome, and
`old_message` always holds the message of the last iteration — so it
records the last message attempted, not delivered, and a message whose
delivery failed is never re-sent while every following iteration keeps
computing that same message. -/
theorem old_message_records_attempt :
    ∀ (env : IterEnv) (s : PollState),
      (∀ m, Event.sendCall m ∈ (iterate env s).2 →
        ∃ l r, (iterate env s).2 =
          l ++ Event.assignOld m :: Event.sendCall m :: r) ∧
      ((iterate env s).1).old_message =
        Option.some (message_of env.http) ∧
      (∀ o2 : Option PyError,
        (iterate ⟨env.http, o2⟩ s).1 = (iterate env s).1) ∧
      (∀ (envs : List IterEnv) (m : String),
        (∀ e ∈ envs, message_of e.http = m) →
        s.old_message = Option.some m →
        sentMessages (run envs s).2 = []) :=
  fun env s =>
    ⟨fun m h => iterate_send_shape env s m h,
     by rw [iterate_state],
     fun o2 => by rw [iterate_state, iterate_state],
     fun envs m hall hold => run_sent_none envs s m hall hold⟩

/-- Witness for C10: after an iteration whose notification delivery
raised, a following iteration computing the same failure message sends
nothing. -/
theorem old_message_records_attempt_witness :
    sentMessages (run
      [⟨HttpOutcome.transportFailure,
        Option.some (PyError.otherError "boom")⟩]
      (iterate ⟨HttpOutcome.transportFailure,
        Option.some (PyError.otherError "boom")⟩ (main_init 0)).1).2
      = [] :=
  (old_message_records_attempt
      ⟨HttpOutcome.transportFailure, Option.some (PyError.otherError "boom")⟩
      (iterate ⟨HttpOutcome.transportFailure,
        Option.some (PyError.otherError "boom")⟩ (main_init 0)).1).2.2.2
    [⟨HttpOutcome.transportFailure, Option.some (PyError.otherError "boom")⟩]
    (failure_message (PyError.httpRequestError ERROR_GET_API_ANSWER))
    (by intro e he; rw [List.mem_singleton] at he; subst he; rfl)
    (by rfl)

end HomeworkBot
